import Mathlib

/-!
Verification of the content validation and page metadata layer of the
ken-portfolio repository (`src/pages.config.ts`).

The source defines, with the Zod schema library, four content-collection
schemas (`projectsCollection`, `journeyCollection`, `usesCollection`,
`testimonialsCollection`) and a static `pagesConfig` lookup table.

This file shallowly embeds those schemas: raw frontmatter records are
modelled as association lists of JSON-like values, each Zod combinator
used by the source (`z.string()`, `z.number()`, `z.boolean()`, `z.enum`,
`z.object`, `z.array`, `.optional()`, `.default()`, `z.string().url()`,
`z.coerce.date()`) is modelled as an error-collecting checker, and the
four schema objects become the validators `validateProject`,
`validateJourney`, `validateUses` and `validateTestimonial`.
-/

set_option autoImplicit false

/-- JSON-like values, the shape of raw frontmatter data handed to the
schema validators. Numbers are modelled as exact rationals (every value
appearing in the repository's content records is exactly representable). -/
inductive JValue where
  | str (s : String)
  | num (q : ℚ)
  | bool (b : Bool)
  | arr (xs : List JValue)
  | obj (fields : List (String × JValue))

/-- A raw record: an association list of field names to values. -/
abbrev RawRecord := List (String × JValue)

/-- Field access on a raw record: the first binding of the key, if any.
A missing key models the JavaScript value `undefined`. -/
def getField (r : RawRecord) (k : String) : Option JValue :=
  Option.map Prod.snd (List.find? (fun p => p.1 == k) r)

/-- Remove every binding of a key from a raw record. -/
def removeField (r : RawRecord) (k : String) : RawRecord :=
  List.filter (fun p => p.1 != k) r

/-- Whether a raw value is a number. -/
def JValue.isNum : JValue → Bool
  | JValue.num _ => true
  | _ => false

/-- One validation issue, mirroring a Zod issue: the path of the offending
field, an issue code (such as invalid_type, invalid_enum_value,
invalid_string, invalid_date) and a human-readable message. -/
structure Issue where
  path : List String
  code : String
  message : String

/-- Error-collecting application, mirroring how `z.object` parses every
property and accumulates the issues of all failing properties into one
error report instead of stopping at the first. -/
def vap {α β : Type} (f : Except (List Issue) (α → β)) (x : Except (List Issue) α) :
    Except (List Issue) β :=
  match f, x with
  | Except.ok g, Except.ok a => Except.ok (g a)
  | Except.error e1, Except.error e2 => Except.error (e1 ++ e2)
  | Except.error e1, Except.ok _ => Except.error e1
  | Except.ok _, Except.error e2 => Except.error e2

/-- Whether a validation result is a failure containing an issue with the
given path and code. -/
def hasIssueB {α : Type} (r : Except (List Issue) α) (p : List String) (c : String) : Bool :=
  match r with
  | Except.ok _ => false
  | Except.error is => is.any (fun i => i.path == p && i.code == c)

/-- Issue reported by Zod for a missing required field. -/
def reqIssue (path : List String) : Issue :=
  { path := path, code := "invalid_type", message := "Required" }

/-- Issue reported by Zod for a present field of the wrong primitive type. -/
def typeIssue (path : List String) (expected : String) : Issue :=
  { path := path, code := "invalid_type", message := "Expected " ++ expected }

/-- Model of `z.string()`. -/
def zString (path : List String) : Option JValue → Except (List Issue) String
  | some (JValue.str s) => Except.ok s
  | some _ => Except.error [typeIssue path "string"]
  | none => Except.error [reqIssue path]

/-- Model of `z.number()`. Any numeric value is accepted; no integrality
check appears in the source (the source never calls `.int()`). -/
def zNumber (path : List String) : Option JValue → Except (List Issue) ℚ
  | some (JValue.num q) => Except.ok q
  | some _ => Except.error [typeIssue path "number"]
  | none => Except.error [reqIssue path]

/-- Model of `z.boolean()`. -/
def zBool (path : List String) : Option JValue → Except (List Issue) Bool
  | some (JValue.bool b) => Except.ok b
  | some _ => Except.error [typeIssue path "boolean"]
  | none => Except.error [reqIssue path]

/-- Model of `z.enum([...])`: a string belonging to the closed value set.
Any string outside the set is an invalid_enum_value failure; no coercion
to a default member happens here. -/
def zEnum (path : List String) (values : List String) :
    Option JValue → Except (List Issue) String
  | some (JValue.str s) =>
      if s ∈ values then Except.ok s
      else Except.error
        [{ path := path, code := "invalid_enum_value",
           message := "Invalid enum value, received " ++ s }]
  | some _ => Except.error [typeIssue path "enum"]
  | none => Except.error [reqIssue path]

/-- Whether a character may occur in a URL scheme after the first. -/
def isSchemeChar (c : Char) : Bool :=
  c.isAlphanum || c == '+' || c == '-' || c == '.'

/-- Model of the absolute-URL well-formedness test behind
`z.string().url()` (which tries `new URL(value)`): the string must start
with a syntactically valid scheme followed by a colon. A string with no
scheme, such as a bare word or a relative path, is rejected. -/
def isValidUrl (s : String) : Bool :=
  match List.span (fun c => c != ':') s.toList with
  | (scheme, rest) =>
    match scheme, rest with
    | c :: cs, ':' :: _ => c.isAlpha && cs.all isSchemeChar
    | _, _ => false

/-- Model of `z.string().url()`. -/
def zUrl (path : List String) : Option JValue → Except (List Issue) String
  | some (JValue.str s) =>
      if isValidUrl s then Except.ok s
      else Except.error
        [{ path := path, code := "invalid_string", message := "Invalid url" }]
  | some _ => Except.error [typeIssue path "string"]
  | none => Except.error [reqIssue path]

/-- Model of `.optional()`: an absent field succeeds with the explicit
absence marker `none`; a present field runs the inner checker. -/
def zOptional {α : Type} (inner : Option JValue → Except (List Issue) α) :
    Option JValue → Except (List Issue) (Option α)
  | none => Except.ok none
  | some v => Except.map some (inner (some v))

/-- Model of `.default(d)`: an absent field resolves to the default; a
present field runs the inner checker (an invalid present value still
fails, it is never replaced by the default). -/
def zDefault {α : Type} (inner : Option JValue → Except (List Issue) α) (d : α) :
    Option JValue → Except (List Issue) α
  | none => Except.ok d
  | some v => inner (some v)

/-- Numeric value of a decimal digit character. -/
def digitVal (c : Char) : Nat := c.toNat - 48

/-- Two decimal digits as a number. -/
def digit2 (a b : Char) : Option Nat :=
  if a.isDigit && b.isDigit then some (digitVal a * 10 + digitVal b) else none

/-- Four decimal digits as a number. -/
def digit4 (a b c d : Char) : Option Nat :=
  if a.isDigit && b.isDigit && c.isDigit && d.isDigit then
    some (((digitVal a * 10 + digitVal b) * 10 + digitVal c) * 10 + digitVal d)
  else none

/-- Gregorian leap-year test. -/
def isLeap (y : Nat) : Bool :=
  y % 4 == 0 && (y % 100 != 0 || y % 400 == 0)

/-- Number of days in a month of a given year. -/
def daysInMonth (y m : Nat) : Nat :=
  if m == 2 then (if isLeap y then 29 else 28)
  else if m == 4 || m == 6 || m == 9 || m == 11 then 30 else 31

/-- Days from the Unix epoch (1970-01-01) to a civil date, the standard
era-based calendar formula. -/
def daysFromCivil (y : Int) (m d : Nat) : Int :=
  let y2 : Int := if m ≤ 2 then y - 1 else y
  let era : Int := Int.fdiv y2 400
  let yoe : Int := y2 - era * 400
  let mp : Int := (Int.ofNat m + 9) % 12
  let doy : Int := Int.fdiv (153 * mp + 2) 5 + Int.ofNat d - 1
  let doe : Int := yoe * 365 + Int.fdiv yoe 4 - Int.fdiv yoe 100 + doy
  era * 146097 + doe - 719468

/-- A time-of-day suffix of the form HH:MM:SSZ, in milliseconds. -/
def parseTimeZ : List Char → Option Nat
  | [h1, h2, c1, n1, n2, c2, s1, s2, c3] =>
    if c1 == ':' && c2 == ':' && c3 == 'Z' then
      match digit2 h1 h2, digit2 n1 n2, digit2 s1 s2 with
      | some h, some n, some s =>
        if h ≤ 23 && n ≤ 59 && s ≤ 59 then
          some (((h * 60 + n) * 60 + s) * 1000)
        else none
      | _, _, _ => none
    else none
  | _ => none

/-- Model of the ECMAScript `Date` string parser used by `new Date(s)`
inside `z.coerce.date()`, restricted to the formats the ECMAScript
standard itself specifies: the UTC date form YYYY-MM-DD and the UTC
date-time form YYYY-MM-DDTHH:MM:SSZ. The result is milliseconds since
the Unix epoch; any other string yields `none` (an Invalid Date). -/
def jsDateParse (s : String) : Option Int :=
  match s.toList with
  | y1 :: y2 :: y3 :: y4 :: c1 :: m1 :: m2 :: c2 :: d1 :: d2 :: rest =>
    if c1 == '-' && c2 == '-' then
      match digit4 y1 y2 y3 y4, digit2 m1 m2, digit2 d1 d2 with
      | some y, some m, some d =>
        if 1 ≤ m ∧ m ≤ 12 ∧ 1 ≤ d ∧ d ≤ daysInMonth y m then
          match rest with
          | [] => some (daysFromCivil (Int.ofNat y) m d * 86400000)
          | c :: t =>
            if c == 'T' then
              match parseTimeZ t with
              | some ms => some (daysFromCivil (Int.ofNat y) m d * 86400000 + Int.ofNat ms)
              | none => none
            else none
        else none
      | _, _, _ => none
    else none
  | _ => none

/-- Truncation of a rational toward zero, the ECMAScript ToInteger step
applied by the `Date` constructor to a numeric argument. -/
def ratTrunc (q : ℚ) : Int := q.num / (q.den : Int)

/-- Model of `z.coerce.date()`: the input is passed through `new Date(x)`
and the result must be a valid date. An unparseable string, an absent
field, or a structured value all produce an invalid_date failure; there
is no silent fallback to an epoch or default date. -/
def zCoerceDate (path : List String) : Option JValue → Except (List Issue) Int
  | some (JValue.str s) =>
      match jsDateParse s with
      | some t => Except.ok t
      | none => Except.error
          [{ path := path, code := "invalid_date", message := "Invalid date" }]
  | some (JValue.num q) => Except.ok (ratTrunc q)
  | some (JValue.bool b) => Except.ok (if b then 1 else 0)
  | some _ => Except.error
      [{ path := path, code := "invalid_date", message := "Invalid date" }]
  | none => Except.error
      [{ path := path, code := "invalid_date", message := "Invalid date" }]

/-- Element-wise validation of an array, collecting the issues of every
failing element (Zod indexes each element's path). -/
def collectElems {α : Type} (elem : List String → JValue → Except (List Issue) α)
    (path : List String) (i : Nat) : List JValue → Except (List Issue) (List α)
  | [] => Except.ok []
  | v :: vs =>
      vap (Except.map (fun a as => a :: as) (elem (path ++ [Nat.repr i]) v))
          (collectElems elem path (i + 1) vs)

/-- Model of `z.array(inner)`. -/
def zArrayOf {α : Type} (elem : List String → JValue → Except (List Issue) α)
    (path : List String) : Option JValue → Except (List Issue) (List α)
  | some (JValue.arr xs) => collectElems elem path 0 xs
  | some _ => Except.error [typeIssue path "array"]
  | none => Except.error [reqIssue path]

/-- A string element of an array. -/
def strElem (path : List String) (v : JValue) : Except (List Issue) String :=
  zString path (some v)

/-- Model of `z.array(z.string())`. -/
def zStringArr (path : List String) : Option JValue → Except (List Issue) (List String) :=
  zArrayOf strElem path

/-- One impact metric: `{ label: z.string(), value: z.string() }`. -/
structure Metric where
  label : String
  value : String

/-- The `impact` sub-object of a project. -/
structure Impact where
  metrics : Option (List Metric)
  qualitative : String

/-- A validated project record, in the field order of `projectsCollection`. -/
structure Project where
  title : String
  role : String
  year : ℚ
  duration : Option String
  teamSize : Option ℚ
  outcomeSummary : String
  overview : String
  problem : String
  constraints : List String
  approach : String
  techStack : List String
  impact : Impact
  learnings : List String
  featured : Bool
  status : String
  order : Option ℚ
  relatedProjects : Option (List String)
  githubUrl : Option String

/-- A validated journey timeline entry. -/
structure JourneyEntry where
  date : Int
  title : String
  type : String
  description : String
  skills : Option (List String)

/-- One item of a uses group. -/
structure UsesItem where
  name : String
  description : String
  url : Option String

/-- A validated uses group. -/
structure UsesGroup where
  category : String
  items : List UsesItem
  order : ℚ

/-- A validated testimonial. -/
structure Testimonial where
  name : String
  role : String
  company : String
  relationship : String
  quote : String
  linkedin : Option String
  featured : Bool
  date : Int

/-- Checker for one metric object. -/
def zMetric (path : List String) (v : JValue) : Except (List Issue) Metric :=
  match v with
  | JValue.obj fields =>
      vap (Except.map Metric.mk (zString (path ++ ["label"]) (getField fields "label")))
          (zString (path ++ ["value"]) (getField fields "value"))
  | _ => Except.error [typeIssue path "object"]

/-- Checker for the `impact` object of a project. -/
def zImpact (path : List String) : Option JValue → Except (List Issue) Impact
  | some (JValue.obj fields) =>
      vap (Except.map Impact.mk
            (zOptional (zArrayOf zMetric (path ++ ["metrics"])) (getField fields "metrics")))
          (zString (path ++ ["qualitative"]) (getField fields "qualitative"))
  | some _ => Except.error [typeIssue path "object"]
  | none => Except.error [reqIssue path]

/-- Checker for one uses item object. -/
def zUsesItem (path : List String) (v : JValue) : Except (List Issue) UsesItem :=
  match v with
  | JValue.obj fields =>
      vap (vap (Except.map UsesItem.mk (zString (path ++ ["name"]) (getField fields "name")))
               (zString (path ++ ["description"]) (getField fields "description")))
          (zOptional (zUrl (path ++ ["url"])) (getField fields "url"))
  | _ => Except.error [typeIssue path "object"]

/-- The validator of `projectsCollection`: every field of the schema is
checked and all issues are collected into one report. -/
def validateProject (r : RawRecord) : Except (List Issue) Project :=
  let f1 := Except.map Project.mk (zString ["title"] (getField r "title"))
  let f2 := vap f1 (zString ["role"] (getField r "role"))
  let f3 := vap f2 (zNumber ["year"] (getField r "year"))
  let f4 := vap f3 (zOptional (zString ["duration"]) (getField r "duration"))
  let f5 := vap f4 (zOptional (zNumber ["teamSize"]) (getField r "teamSize"))
  let f6 := vap f5 (zString ["outcomeSummary"] (getField r "outcomeSummary"))
  let f7 := vap f6 (zString ["overview"] (getField r "overview"))
  let f8 := vap f7 (zString ["problem"] (getField r "problem"))
  let f9 := vap f8 (zStringArr ["constraints"] (getField r "constraints"))
  let f10 := vap f9 (zString ["approach"] (getField r "approach"))
  let f11 := vap f10 (zStringArr ["techStack"] (getField r "techStack"))
  let f12 := vap f11 (zImpact ["impact"] (getField r "impact"))
  let f13 := vap f12 (zStringArr ["learnings"] (getField r "learnings"))
  let f14 := vap f13 (zDefault (zBool ["featured"]) false (getField r "featured"))
  let f15 := vap f14
    (zDefault (zEnum ["status"] ["completed", "ongoing", "archived"]) "completed"
      (getField r "status"))
  let f16 := vap f15 (zOptional (zNumber ["order"]) (getField r "order"))
  let f17 := vap f16 (zOptional (zStringArr ["relatedProjects"]) (getField r "relatedProjects"))
  vap f17 (zOptional (zUrl ["githubUrl"]) (getField r "githubUrl"))

/-- The validator of `journeyCollection`. -/
def validateJourney (r : RawRecord) : Except (List Issue) JourneyEntry :=
  let f1 := Except.map JourneyEntry.mk (zCoerceDate ["date"] (getField r "date"))
  let f2 := vap f1 (zString ["title"] (getField r "title"))
  let f3 := vap f2 (zEnum ["type"] ["milestone", "learning", "transition"] (getField r "type"))
  let f4 := vap f3 (zString ["description"] (getField r "description"))
  vap f4 (zOptional (zStringArr ["skills"]) (getField r "skills"))

/-- The validator of `usesCollection`. -/
def validateUses (r : RawRecord) : Except (List Issue) UsesGroup :=
  let f1 := Except.map UsesGroup.mk
    (zEnum ["category"] ["tools", "stack"] (getField r "category"))
  let f2 := vap f1 (zArrayOf zUsesItem ["items"] (getField r "items"))
  vap f2 (zNumber ["order"] (getField r "order"))

/-- The validator of `testimonialsCollection`. -/
def validateTestimonial (r : RawRecord) : Except (List Issue) Testimonial :=
  let f1 := Except.map Testimonial.mk (zString ["name"] (getField r "name"))
  let f2 := vap f1 (zString ["role"] (getField r "role"))
  let f3 := vap f2 (zString ["company"] (getField r "company"))
  let f4 := vap f3 (zString ["relationship"] (getField r "relationship"))
  let f5 := vap f4 (zString ["quote"] (getField r "quote"))
  let f6 := vap f5 (zOptional (zUrl ["linkedin"]) (getField r "linkedin"))
  let f7 := vap f6 (zDefault (zBool ["featured"]) false (getField r "featured"))
  vap f7 (zCoerceDate ["date"] (getField r "date"))

/-- The closed set of static page identifiers of `pagesConfig`. An
identifier outside this set is unrepresentable, mirroring the record-typed
constant in the source. -/
inductive PageId where
  | home
  | projects
  | journey
  | uses
  | contact

/-- Page metadata, mirroring the `PageMeta` interface of the source:
required `title` and `description`, optional `heading` and `intro`. -/
structure PageMeta where
  title : String
  description : String
  heading : Option String
  intro : Option String

/-- The `pagesConfig` constant: the immutable page metadata registry.
Looking a page identifier up is function application. -/
def pagesConfig : PageId → PageMeta
  | PageId.home =>
    { title := "Home"
      description := "Engineering leader specializing in system architecture, technical decision-making, and delivering measurable business impact."
      heading := none
      intro := none }
  | PageId.projects =>
    { title := "Projects"
      description := "Data analysis projects showcasing problem-solving approach, analytical methods, and measurable impact across various domains."
      heading := some "Projects"
      intro := some "Projects that demonstrate how I approach data problems, apply analytical methods, and deliver actionable insights. Each project tells the story of the challenge, the data, the analysis performed, and the outcomes achieved." }
  | PageId.journey =>
    { title := "Journey - Career Growth & Learning Timeline"
      description := "A chronological timeline of my professional journey, highlighting key milestones, learning moments, and career transitions that shaped my growth as a Data Analyst."
      heading := some "Journey"
      intro := some "A timeline of my professional growth and learning progression. This isn't a resume—it's a story of how I've evolved as a Data Analyst, the pivotal moments that shaped my thinking, and the skills I've developed along the way." }
  | PageId.uses =>
    { title := "Uses - Tools & Tech Stack"
      description := "A comprehensive list of the tools and technologies I use for development work."
      heading := some "Uses"
      intro := some "A transparent look at the tools and technologies that power my development workflow. This page documents what I use and why, helping other engineers discover useful tools and understand my technical context." }
  | PageId.contact =>
    { title := "Contact - Get in Touch"
      description := "Get in touch to discuss opportunities, collaborations, or technical challenges."
      heading := some "Let's Talk"
      intro := none }

/-- The top-level field names of the projects schema, in declaration order. -/
def projectKeys : List String :=
  ["title", "role", "year", "duration", "teamSize", "outcomeSummary", "overview",
   "problem", "constraints", "approach", "techStack", "impact", "learnings",
   "featured", "status", "order", "relatedProjects", "githubUrl"]

/-- The top-level field names of the journey schema. -/
def journeyKeys : List String := ["date", "title", "type", "description", "skills"]

/-- The top-level field names of the uses schema. -/
def usesKeys : List String := ["category", "items", "order"]

/-- The top-level field names of the testimonials schema. -/
def testimonialKeys : List String :=
  ["name", "role", "company", "relationship", "quote", "linkedin", "featured", "date"]

/-- Every field name declared by any of the four schemas. -/
def allSchemaKeys : List String :=
  projectKeys ++ journeyKeys ++ usesKeys ++ testimonialKeys

/-- A fully valid raw project record that supplies every required field and
omits every optional and defaulted field. -/
def projBase : RawRecord :=
  [("title", JValue.str "Sales Dashboard"),
   ("role", JValue.str "Data Analyst"),
   ("year", JValue.num 2023),
   ("outcomeSummary", JValue.str "Reduced reporting time"),
   ("overview", JValue.str "Built a dashboard"),
   ("problem", JValue.str "Manual reporting was slow"),
   ("constraints", JValue.arr [JValue.str "Limited budget"]),
   ("approach", JValue.str "Iterative delivery"),
   ("techStack", JValue.arr [JValue.str "Python", JValue.str "SQL"]),
   ("impact", JValue.obj [("qualitative", JValue.str "Faster decisions")]),
   ("learnings", JValue.arr [JValue.str "Automate early"])]

/-- The typed record produced by validating `projBase`. -/
def projBaseOut : Project :=
  { title := "Sales Dashboard", role := "Data Analyst", year := 2023,
    duration := none, teamSize := none, outcomeSummary := "Reduced reporting time",
    overview := "Built a dashboard", problem := "Manual reporting was slow",
    constraints := ["Limited budget"], approach := "Iterative delivery",
    techStack := ["Python", "SQL"],
    impact := { metrics := none, qualitative := "Faster decisions" },
    learnings := ["Automate early"], featured := false, status := "completed",
    order := none, relatedProjects := none, githubUrl := none }

/-- `projBase` with the `year` field replaced by an arbitrary value. -/
def projYear (v : JValue) : RawRecord := ("year", v) :: projBase

/-- `projBase` with a `teamSize` field supplied. -/
def projTeamSize (v : JValue) : RawRecord := ("teamSize", v) :: projBase

/-- `projBase` with an `order` field supplied. -/
def projOrder (v : JValue) : RawRecord := ("order", v) :: projBase

/-- `projBase` with a `status` field supplied. -/
def projStatus (v : JValue) : RawRecord := ("status", v) :: projBase

/-- The raw project record of the multi-error property: `title` and
`overview` missing, `githubUrl` malformed, every other field valid. -/
def projMultiErr : RawRecord :=
  ("githubUrl", JValue.str "not-a-url")
    :: removeField (removeField projBase "title") "overview"

/-- A fully valid raw journey record. -/
def journeyBase : RawRecord :=
  [("date", JValue.str "2023-05-01"),
   ("title", JValue.str "First analytics role"),
   ("type", JValue.str "milestone"),
   ("description", JValue.str "Joined as analyst")]

/-- `journeyBase` with the `date` field replaced. -/
def journeyDate (v : JValue) : RawRecord := ("date", v) :: journeyBase

/-- `journeyBase` with the `type` field replaced. -/
def journeyType (v : JValue) : RawRecord := ("type", v) :: journeyBase

/-- The raw uses-group record of the round-trip property. -/
def usesBase : RawRecord :=
  [("category", JValue.str "tools"),
   ("items", JValue.arr
     [JValue.obj [("name", JValue.str "Editor"),
                  ("description", JValue.str "Code editing")]]),
   ("order", JValue.num 1)]

/-- `usesBase` with the `order` field replaced. -/
def usesOrder (v : JValue) : RawRecord := ("order", v) :: usesBase

/-- A fully valid raw testimonial record without the optional `linkedin`. -/
def testimonialBase : RawRecord :=
  [("name", JValue.str "Alex Doe"),
   ("role", JValue.str "Engineering Manager"),
   ("company", JValue.str "Acme"),
   ("relationship", JValue.str "Worked together at Acme"),
   ("quote", JValue.str "A rigorous analyst"),
   ("date", JValue.str "2024-01-15")]

theorem vap_ok {α β : Type} {f : Except (List Issue) (α → β)} {x : Except (List Issue) α}
    {b : β} (h : vap f x = Except.ok b) :
    ∃ g a, f = Except.ok g ∧ x = Except.ok a ∧ b = g a := by
  cases f with
  | ok g =>
    cases x with
    | ok a =>
      refine ⟨g, a, rfl, rfl, ?_⟩
      have h' : Except.ok (g a) = (Except.ok b : Except (List Issue) β) := h
      injection h' with h'
      exact h'.symm
    | error e => simp [vap] at h
  | error e =>
    cases x with
    | ok a => simp [vap] at h
    | error e2 => simp [vap] at h

theorem map_ok {α β : Type} {f : α → β} {x : Except (List Issue) α} {b : β}
    (h : Except.map f x = Except.ok b) : ∃ a, x = Except.ok a ∧ b = f a := by
  cases x with
  | ok a =>
    refine ⟨a, rfl, ?_⟩
    have h' : Except.ok (f a) = (Except.ok b : Except (List Issue) β) := h
    injection h' with h'
    exact h'.symm
  | error e => simp [Except.map] at h

theorem find_none (l : RawRecord) (k : String)
    (h : ∀ p ∈ l, (p.1 == k) = false) :
    List.find? (fun p => p.1 == k) l = none := by
  induction l with
  | nil => rfl
  | cons a t ih =>
    have ha := h a (List.mem_cons_self a t)
    simp only [List.find?, ha]
    exact ih (fun p hp => h p (List.mem_cons_of_mem a hp))

theorem getField_append (r extra : RawRecord) (k : String)
    (h : ∀ p ∈ extra, (p.1 == k) = false) :
    getField (r ++ extra) k = getField r k := by
  induction r with
  | nil =>
    show getField extra k = getField [] k
    simp [getField, find_none extra k h]
  | cons a t ih =>
    simp only [List.cons_append, getField, List.find?]
    cases hak : (a.1 == k) with
    | true => rfl
    | false => exact ih

/-- C1: validation of a project record is total over the record: a raw
project record missing both `title` and `overview` and carrying the
malformed `githubUrl` value "not-a-url" produces one single validation
failure whose report lists exactly the three violations, in schema order,
rather than stopping at the first. -/
theorem project_multi_error_collection :
    validateProject projMultiErr =
      Except.error
        [{ path := ["title"], code := "invalid_type", message := "Required" },
         { path := ["overview"], code := "invalid_type", message := "Required" },
         { path := ["githubUrl"], code := "invalid_string", message := "Invalid url" }] := rfl

/-- C3: journey `date` values are parsed from textual calendar-date forms
and normalized to one internal value: the record with date "2023-05-01"
and the record with the equivalent alternate form "2023-05-01T00:00:00Z"
validate to the same output, whose internal date is the epoch-millisecond
value of that calendar date; an unparseable date value is a validation
failure on the `date` field, not a silent default. -/
theorem journey_date_normalization :
    validateJourney (journeyDate (JValue.str "2023-05-01")) =
      validateJourney (journeyDate (JValue.str "2023-05-01T00:00:00Z")) ∧
    Except.map JourneyEntry.date (validateJourney (journeyDate (JValue.str "2023-05-01"))) =
      Except.ok 1682899200000 ∧
    validateJourney (journeyDate (JValue.str "not-a-date")) =
      Except.error [{ path := ["date"], code := "invalid_date", message := "Invalid date" }] :=
  ⟨rfl, rfl, rfl⟩

/-- C6: URL fields accept only syntactically well-formed absolute URLs: a
testimonial record whose `linkedin` field is "not-a-url" fails validation
with a format violation on the `linkedin` field, while a well-formed
absolute URL is accepted and passed through unmodified. -/
theorem testimonial_url_rejection :
    validateTestimonial (("linkedin", JValue.str "not-a-url") :: testimonialBase) =
      Except.error
        [{ path := ["linkedin"], code := "invalid_string", message := "Invalid url" }] ∧
    Except.map Testimonial.linkedin
      (validateTestimonial
        (("linkedin", JValue.str "https://www.linkedin.com/in/alex") :: testimonialBase)) =
      Except.ok (some "https://www.linkedin.com/in/alex") :=
  ⟨rfl, rfl⟩

/-- C7: the raw uses-group record with category "tools", one item carrying
only `name` and `description`, and order 1 validates successfully, and the
typed output marks `items[0].url` as explicitly absent (`none`, not a null
placeholder and not dropped from the record type) and has order 1. -/
theorem uses_roundtrip_example :
    validateUses usesBase =
      Except.ok
        { category := "tools",
          items := [{ name := "Editor", description := "Code editing", url := none }],
          order := 1 } := rfl

/-- C8: for each of the five defined page identifiers, looking the page up
in `pagesConfig` returns a record whose `title` and `description` are
non-empty strings. -/
theorem pages_registry_closure :
    ∀ p : PageId, (pagesConfig p).title ≠ "" ∧ (pagesConfig p).description ≠ "" := by
  intro p
  cases p <;> exact ⟨by decide, by decide⟩

/-- C9: validation of every content kind is deterministic and pure: the
validators are functions of the raw record alone (the embedding has no
state, I/O or randomness), so validating a record and re-validating the
identical record yield identical results for all four content kinds. -/
theorem validation_deterministic :
    ∀ r : RawRecord,
      validateProject r = validateProject r ∧
      validateJourney r = validateJourney r ∧
      validateUses r = validateUses r ∧
      validateTestimonial r = validateTestimonial r :=
  fun _ => ⟨rfl, rfl, rfl, rfl⟩

/-- C2 counterexample: the claim that numeric fields are accepted only
when the value is an integer is false on the code: the schema uses a
plain number check with no integrality constraint, so a project record
whose `year` is the non-integer number 4047/2 (= 2023.5) validates
successfully. -/
theorem numeric_fields_integer_counterexample :
    Except.map Project.year (validateProject (projYear (JValue.num (4047 / 2)))) =
      Except.ok (4047 / 2) ∧
    (2023 : ℚ) < 4047 / 2 ∧ (4047 : ℚ) / 2 < 2024 := by
  refine ⟨rfl, by norm_num, by norm_num⟩

/-- C2 amended: the numeric fields `year`, `teamSize` and `order` of
projects and `order` of uses groups are accepted whenever the supplied
value is a number — integrality is not required at any of the four field
sites — and any non-numeric input for any of these fields is a validation
failure citing that field. -/
theorem numeric_fields_amended :
    (∀ q : ℚ,
      (validateProject (projYear (JValue.num q))).isOk = true ∧
      (validateProject (projTeamSize (JValue.num q))).isOk = true ∧
      (validateProject (projOrder (JValue.num q))).isOk = true ∧
      (validateUses (usesOrder (JValue.num q))).isOk = true) ∧
    (∀ v : JValue, v.isNum = false →
      hasIssueB (validateProject (projYear v)) ["year"] "invalid_type" = true ∧
      hasIssueB (validateProject (projTeamSize v)) ["teamSize"] "invalid_type" = true ∧
      hasIssueB (validateProject (projOrder v)) ["order"] "invalid_type" = true ∧
      hasIssueB (validateUses (usesOrder v)) ["order"] "invalid_type" = true) := by
  constructor
  · intro q
    exact ⟨rfl, rfl, rfl, rfl⟩
  · intro v hv
    cases v with
    | num q => simp [JValue.isNum] at hv
    | str s => exact ⟨rfl, rfl, rfl, rfl⟩
    | bool b => exact ⟨rfl, rfl, rfl, rfl⟩
    | arr xs => exact ⟨rfl, rfl, rfl, rfl⟩
    | obj fields => exact ⟨rfl, rfl, rfl, rfl⟩

/-- C2 amended witness: the number 5 is accepted at all four numeric field
sites and the string "abc" is rejected at all four. -/
theorem numeric_fields_amended_witness :
    ((validateProject (projYear (JValue.num 5))).isOk = true ∧
     (validateProject (projTeamSize (JValue.num 5))).isOk = true ∧
     (validateProject (projOrder (JValue.num 5))).isOk = true ∧
     (validateUses (usesOrder (JValue.num 5))).isOk = true) ∧
    (hasIssueB (validateProject (projYear (JValue.str "abc"))) ["year"] "invalid_type" = true ∧
     hasIssueB (validateProject (projTeamSize (JValue.str "abc"))) ["teamSize"] "invalid_type"
       = true ∧
     hasIssueB (validateProject (projOrder (JValue.str "abc"))) ["order"] "invalid_type" = true ∧
     hasIssueB (validateUses (usesOrder (JValue.str "abc"))) ["order"] "invalid_type" = true) :=
  ⟨numeric_fields_amended.1 5, numeric_fields_amended.2 (JValue.str "abc") rfl⟩

/-- C4: enumeration fields reject every value outside their closed set as
a validation failure and never coerce it to a default member: a journey
record whose `type` is any string outside milestone/learning/transition
fails with an enumeration violation citing `type`, and a project record
whose `status` is any string outside completed/ongoing/archived fails
(its result is not a success carrying the default "completed"). -/
theorem enum_closed_rejection :
    (∀ s : String, s ∉ (["milestone", "learning", "transition"] : List String) →
      hasIssueB (validateJourney (journeyType (JValue.str s))) ["type"] "invalid_enum_value"
        = true ∧
      (validateJourney (journeyType (JValue.str s))).isOk = false) ∧
    (∀ s : String, s ∉ (["completed", "ongoing", "archived"] : List String) →
      hasIssueB (validateProject (projStatus (JValue.str s))) ["status"] "invalid_enum_value"
        = true ∧
      (validateProject (projStatus (JValue.str s))).isOk = false) := by
  constructor
  · intro s hs
    have hz : zEnum ["type"] ["milestone", "learning", "transition"]
        (getField (journeyType (JValue.str s)) "type") =
        Except.error
          [{ path := ["type"], code := "invalid_enum_value",
             message := "Invalid enum value, received " ++ s }] := by
      show zEnum ["type"] ["milestone", "learning", "transition"] (some (JValue.str s)) = _
      simp only [zEnum]
      rw [if_neg hs]
    exact ⟨by simp only [validateJourney, hz]; rfl, by simp only [validateJourney, hz]; rfl⟩
  · intro s hs
    have hz : zDefault (zEnum ["status"] ["completed", "ongoing", "archived"]) "completed"
        (getField (projStatus (JValue.str s)) "status") =
        Except.error
          [{ path := ["status"], code := "invalid_enum_value",
             message := "Invalid enum value, received " ++ s }] := by
      show zDefault (zEnum ["status"] ["completed", "ongoing", "archived"]) "completed"
          (some (JValue.str s)) = _
      simp only [zDefault, zEnum]
      rw [if_neg hs]
    exact ⟨by simp only [validateProject, hz]; rfl, by simp only [validateProject, hz]; rfl⟩

/-- C4 witness: the out-of-set string "bogus" is rejected as a journey
`type` and as a project `status`. -/
theorem enum_closed_rejection_witness :
    (hasIssueB (validateJourney (journeyType (JValue.str "bogus"))) ["type"]
        "invalid_enum_value" = true ∧
      (validateJourney (journeyType (JValue.str "bogus"))).isOk = false) ∧
    (hasIssueB (validateProject (projStatus (JValue.str "bogus"))) ["status"]
        "invalid_enum_value" = true ∧
      (validateProject (projStatus (JValue.str "bogus"))).isOk = false) :=
  ⟨enum_closed_rejection.1 "bogus" (by decide),
   enum_closed_rejection.2 "bogus" (by decide)⟩

/-- C5: every valid raw project record that omits both `featured` and
`status` validates successfully to a typed record with `featured = false`
and `status = "completed"`. -/
theorem project_defaults_applied (r : RawRecord) (p : Project)
    (hf : getField r "featured" = none) (hs : getField r "status" = none)
    (h : validateProject r = Except.ok p) :
    p.featured = false ∧ p.status = "completed" := by
  simp only [validateProject] at h
  rw [hf, hs] at h
  obtain ⟨g17, a18, h17, ha18, hp⟩ := vap_ok h
  obtain ⟨g16, a17, h16, ha17, hg17⟩ := vap_ok h17
  obtain ⟨g15, a16, h15, ha16, hg16⟩ := vap_ok h16
  obtain ⟨g14, a15, h14, ha15, hg15⟩ := vap_ok h15
  obtain ⟨g13, a14, h13, ha14, hg14⟩ := vap_ok h14
  obtain ⟨g12, a13, h12, ha13, hg13⟩ := vap_ok h13
  obtain ⟨g11, a12, h11, ha12, hg12⟩ := vap_ok h12
  obtain ⟨g10, a11, h10, ha11, hg11⟩ := vap_ok h11
  obtain ⟨g9, a10, h9, ha10, hg10⟩ := vap_ok h10
  obtain ⟨g8, a9, h8, ha9, hg9⟩ := vap_ok h9
  obtain ⟨g7, a8, h7, ha8, hg8⟩ := vap_ok h8
  obtain ⟨g6, a7, h6, ha7, hg7⟩ := vap_ok h7
  obtain ⟨g5, a6, h5, ha6, hg6⟩ := vap_ok h6
  obtain ⟨g4, a5, h4, ha5, hg5⟩ := vap_ok h5
  obtain ⟨g3, a4, h3, ha4, hg4⟩ := vap_ok h4
  obtain ⟨g2, a3, h2, ha3, hg3⟩ := vap_ok h3
  obtain ⟨g1, a2, h1, ha2, hg2⟩ := vap_ok h2
  obtain ⟨a1, ht, hg1⟩ := map_ok h1
  have e14 : a14 = false := by
    simp only [zDefault] at ha14
    injection ha14 with e
    exact e.symm
  have e15 : a15 = "completed" := by
    simp only [zDefault] at ha15
    injection ha15 with e
    exact e.symm
  subst hp hg17 hg16 hg15 hg14 hg13 hg12 hg11 hg10 hg9 hg8 hg7 hg6 hg5 hg4 hg3 hg2 hg1
  subst e14 e15
  exact ⟨rfl, rfl⟩

/-- C5 witness: the concrete valid record `projBase` omits `featured` and
`status`, validates successfully, and its typed output carries the two
documented defaults. -/
theorem project_defaults_applied_witness :
    projBaseOut.featured = false ∧ projBaseOut.status = "completed" :=
  project_defaults_applied projBase projBaseOut rfl rfl rfl

/-- C10: for each content kind separately, appending fields whose keys are
not named by that kind's schema leaves that kind's validation unchanged:
the record still validates to the very same result when its declared
fields are valid, and the unrecognized keys never appear in the typed
output (the output types carry only the declared fields) and are never
reported as violations. A key declared by a different kind's schema still
counts as unknown to this kind. -/
theorem unknown_keys_stripped (r extra : RawRecord) :
    ((∀ p ∈ extra, p.1 ∉ projectKeys) →
      validateProject (r ++ extra) = validateProject r) ∧
    ((∀ p ∈ extra, p.1 ∉ journeyKeys) →
      validateJourney (r ++ extra) = validateJourney r) ∧
    ((∀ p ∈ extra, p.1 ∉ usesKeys) →
      validateUses (r ++ extra) = validateUses r) ∧
    ((∀ p ∈ extra, p.1 ∉ testimonialKeys) →
      validateTestimonial (r ++ extra) = validateTestimonial r) := by
  have mkge : ∀ ks : List String, (∀ p ∈ extra, p.1 ∉ ks) →
      ∀ k : String, k ∈ ks → getField (r ++ extra) k = getField r k := by
    intro ks h k hk
    apply getField_append
    intro p hp
    have hne : p.1 ≠ k := fun e => h p hp (e ▸ hk)
    exact beq_eq_false_iff_ne.mpr hne
  refine ⟨?_, ?_, ?_, ?_⟩
  · intro h
    have ge := mkge projectKeys h
    simp only [validateProject]
    rw [ge "title" (by decide), ge "role" (by decide), ge "year" (by decide),
      ge "duration" (by decide), ge "teamSize" (by decide), ge "outcomeSummary" (by decide),
      ge "overview" (by decide), ge "problem" (by decide), ge "constraints" (by decide),
      ge "approach" (by decide), ge "techStack" (by decide), ge "impact" (by decide),
      ge "learnings" (by decide), ge "featured" (by decide), ge "status" (by decide),
      ge "order" (by decide), ge "relatedProjects" (by decide), ge "githubUrl" (by decide)]
  · intro h
    have ge := mkge journeyKeys h
    simp only [validateJourney]
    rw [ge "date" (by decide), ge "title" (by decide), ge "type" (by decide),
      ge "description" (by decide), ge "skills" (by decide)]
  · intro h
    have ge := mkge usesKeys h
    simp only [validateUses]
    rw [ge "category" (by decide), ge "items" (by decide), ge "order" (by decide)]
  · intro h
    have ge := mkge testimonialKeys h
    simp only [validateTestimonial]
    rw [ge "name" (by decide), ge "role" (by decide), ge "company" (by decide),
      ge "relationship" (by decide), ge "quote" (by decide), ge "linkedin" (by decide),
      ge "featured" (by decide), ge "date" (by decide)]

/-- C10 witness: a journey record with an extra `quote` key (a testimonial
field, unknown to the journey schema) and a uses record with an extra
`skills` key (a journey field, unknown to the uses schema) both validate
to the same result as without the extra key. -/
theorem unknown_keys_stripped_witness :
    validateJourney (journeyBase ++ [("quote", JValue.str "extra")]) =
      validateJourney journeyBase ∧
    validateUses (usesBase ++ [("skills", JValue.str "extra")]) = validateUses usesBase :=
  ⟨(unknown_keys_stripped journeyBase [("quote", JValue.str "extra")]).2.1 (by decide),
   (unknown_keys_stripped usesBase [("skills", JValue.str "extra")]).2.2.1 (by decide)⟩
